import Mathlib

/-!
Verification development for the `ifl_core` behavioral-analytics engine
(repository `Context-to-localLLM`).  The Rust sources under
`src/ifl_core/src` are shallowly embedded: machine integers (`u64`,
`u32`, `usize`) become `Nat` (no arithmetic in the engine can overflow at
the modelled scale, and `saturating_sub` is exactly truncated `Nat`
subtraction), `f32` values become exact rationals `ℚ`, Rust `Vec` becomes
`List`, `Option` stays `Option`, and fallible registry operations return
`Except String`.

Parts of the engine that the rest of the repository references but that
are absent from `src/` (the extractor event log behind `get_events`, the
`efficiency_score` computation, and the `UserState` enum) are modelled
from the specification; each such definition carries a doc comment that
starts with `Modelled from the spec:`.

The `event.rs` enum also declares a `GhostText` variant, but
`process_event` in `feature.rs` has no arm for it (its timestamp match
does not cover it), so the embedded event type covers exactly the events
the engine processes.
-/

set_option maxRecDepth 4096

namespace IFL

/-- Kind of a deletion event, from `event.rs`. -/
inductive DeleteKind
  | Backspace
  | Delete
deriving DecidableEq

/-- Input events, from `event.rs` (`GhostText` omitted: `process_event`
in `feature.rs` does not handle it).  Field `stop` stands for the Rust
field `end`, which is a Lean keyword. -/
inductive InputEvent
  | KeyInsert (ch : Char) (ts : Nat)
  | KeyDelete (kind : DeleteKind) (count : Nat) (ts : Nat)
  | Paste (length : Nat) (ts : Nat)
  | Cut (length : Nat) (ts : Nat)
  | CursorMove (position : Nat) (ts : Nat)
  | SelectionChange (start : Nat) (stop : Nat) (ts : Nat)
  | CompositionStart (ts : Nat)
  | CompositionEnd (ts : Nat)
  | Submit (ts : Nat)
  | Undo (ts : Nat)
  | Redo (ts : Nat)
deriving DecidableEq

/-- Timestamp extraction, mirroring the `match` at the top of
`process_event` in `feature.rs`. -/
def InputEvent.ts : InputEvent → Nat
  | .KeyInsert _ ts => ts
  | .KeyDelete _ _ ts => ts
  | .Paste _ ts => ts
  | .Cut _ ts => ts
  | .CursorMove _ ts => ts
  | .SelectionChange _ _ ts => ts
  | .CompositionStart ts => ts
  | .CompositionEnd ts => ts
  | .Submit ts => ts
  | .Undo ts => ts
  | .Redo ts => ts

/-- From `profile.rs`. -/
inductive SourceType
  | TypedOnly
  | PasteOnly
  | Mixed
deriving DecidableEq

/-- From `profile.rs`. -/
inductive FirstAction
  | Paste
  | Typed
  | Other
deriving DecidableEq

/-- From `profile.rs`; `f32` fields become `ℚ`. -/
structure SourceFeatures where
  source_type : SourceType
  paste_ratio : ℚ
  paste_events : Nat
  first_action : FirstAction
deriving DecidableEq

/-- From `profile.rs`. -/
structure TimingFeatures where
  total_duration_ms : Nat
  avg_chars_per_sec : ℚ
  typing_bursts : Nat
  long_pause_count : Nat
  pre_submit_pause_ms : Nat
deriving DecidableEq

/-- From `profile.rs` (the version with `efficiency_score`, which is the
one `rules.rs` and the tests consume). -/
structure EditingFeatures where
  backspace_count : Nat
  backspace_burst_count : Nat
  undo_count : Nat
  redo_count : Nat
  selection_edit_count : Nat
  efficiency_score : ℚ
deriving DecidableEq

/-- From `profile.rs` (the twelve-field version that `rules.rs` reads). -/
structure StructureFeatures where
  char_count : Nat
  line_count : Nat
  avg_line_length : ℚ
  bullet_lines : Nat
  has_code_block : Bool
  question_like : Bool
  command_like : Bool
  japanese_detected : Bool
  request_summary : Bool
  request_implementation : Bool
  is_polite : Bool
  is_direct : Bool
deriving DecidableEq

/-- From `profile.rs`. -/
inductive AnswerMode
  | Summarize
  | Structure
  | Refine
  | Explore
  | Complete
  | ClarifyQuestion
deriving DecidableEq

/-- From `profile.rs`. -/
inductive ScopeHint
  | Narrow
  | Medium
  | Broad
deriving DecidableEq

/-- From `profile.rs`. -/
inductive ToneHint
  | Direct
  | Gentle
  | Neutral
deriving DecidableEq

/-- From `profile.rs`. -/
inductive DepthHint
  | Shallow
  | Normal
  | Deep
deriving DecidableEq

/-- Modelled from the spec: the `UserState` enum is consumed by
`rules.rs` (which imports it from `profile.rs`) but its declaration is
absent from `src/`; the spec lists exactly these six states. -/
inductive UserState
  | Hesitant
  | Flowing
  | Editing
  | Scattered
  | Pasting
  | Focused
deriving DecidableEq

/-- From `profile.rs`, with the `user_state` field that `rules.rs`
populates. -/
structure AnswerTags where
  answer_mode : List AnswerMode
  scope_hint : ScopeHint
  tone_hint : ToneHint
  depth_hint : DepthHint
  user_state : List UserState
  confidence : ℚ
deriving DecidableEq

/-- From `profile.rs`.  The `ghost_text` field referenced by `api.rs` is
omitted: `extract_ghost_text` has no definition anywhere in `src/` and
the `GhostText` event is not processed by the extractor. -/
structure InputProfile where
  message_id : String
  source : SourceFeatures
  timing : TimingFeatures
  editing : EditingFeatures
  structure_features : StructureFeatures
  tags : AnswerTags
deriving DecidableEq

/-- Extractor state, from `feature.rs`.  The `events` field is the
ordered event log; it is modelled from the spec (section 4.1 lists
`events` among the state fields and `get_events` among the views) because
`api.rs` calls `get_events` for export/replay while `feature.rs` as
committed omits the field. -/
structure FeatureExtractor where
  start_time : Option Nat
  last_event_time : Option Nat
  first_action : Option FirstAction
  paste_events : Nat
  total_pasted_chars : Nat
  total_typed_chars : Nat
  typing_bursts : Nat
  long_pause_count : Nat
  backspace_count : Nat
  backspace_burst_count : Nat
  undo_count : Nat
  redo_count : Nat
  selection_edit_count : Nat
  in_backspace_burst : Bool
  paste_timestamps : List Nat
  events : List InputEvent
deriving DecidableEq

/-- Constructor `FeatureExtractor::new`, from `feature.rs`. -/
def FeatureExtractor.new : FeatureExtractor where
  start_time := none
  last_event_time := none
  first_action := none
  paste_events := 0
  total_pasted_chars := 0
  total_typed_chars := 0
  typing_bursts := 0
  long_pause_count := 0
  backspace_count := 0
  backspace_burst_count := 0
  undo_count := 0
  redo_count := 0
  selection_edit_count := 0
  in_backspace_burst := false
  paste_timestamps := []
  events := []

/-- Modelled from the spec: step 1 of `process_event` appends the event
to the log (the log itself is the spec-modelled `events` field). -/
def record_event (st : FeatureExtractor) (e : InputEvent) : FeatureExtractor :=
  { st with events := st.events ++ [e] }

/-- Lines 69-71 of `feature.rs`: set `start_time` on the first event. -/
def start_update (st : FeatureExtractor) (ts : Nat) : FeatureExtractor :=
  if st.start_time.isNone then { st with start_time := some ts } else st

/-- Lines 74-80 of `feature.rs`: first-action detection. -/
def first_action_update (st : FeatureExtractor) (e : InputEvent) : FeatureExtractor :=
  if st.first_action.isNone then
    match e with
    | .Paste _ _ => { st with first_action := some FirstAction.Paste }
    | .KeyInsert _ _ => { st with first_action := some FirstAction.Typed }
    | _ => st
  else st

/-- Lines 82-94 of `feature.rs`: timing analysis.  A gap above 1500 ms
increments both `long_pause_count` and `typing_bursts`; the very first
event opens the first burst.  `saturating_sub` is `Nat` subtraction. -/
def timing_update (st : FeatureExtractor) (ts : Nat) : FeatureExtractor :=
  match st.last_event_time with
  | some last_ts =>
      if ts - last_ts > 1500 then
        { st with
            long_pause_count := st.long_pause_count + 1
            typing_bursts := st.typing_bursts + 1
            last_event_time := some ts }
      else
        { st with last_event_time := some ts }
  | none =>
      { st with
          typing_bursts := st.typing_bursts + 1
          last_event_time := some ts }

/-- Lines 97-138 of `feature.rs`: the event-specific dispatch.  Note
that `KeyDelete` with kind `Delete`, `Cut`, `SelectionChange` and the
catch-all arm only clear the backspace-burst flag. -/
def dispatch_event (st : FeatureExtractor) (e : InputEvent) (ts : Nat) : FeatureExtractor :=
  match e with
  | .KeyInsert _ _ =>
      { st with
          total_typed_chars := st.total_typed_chars + 1
          in_backspace_burst := false }
  | .KeyDelete kind count _ =>
      if kind = DeleteKind.Backspace then
        let st1 := { st with backspace_count := st.backspace_count + count }
        if st1.in_backspace_burst then st1
        else
          { st1 with
              backspace_burst_count := st1.backspace_burst_count + 1
              in_backspace_burst := true }
      else
        { st with in_backspace_burst := false }
  | .Paste length _ =>
      { st with
          paste_events := st.paste_events + 1
          total_pasted_chars := st.total_pasted_chars + length
          paste_timestamps := st.paste_timestamps ++ [ts]
          in_backspace_burst := false }
  | .Undo _ => { st with undo_count := st.undo_count + 1, in_backspace_burst := false }
  | .Redo _ => { st with redo_count := st.redo_count + 1, in_backspace_burst := false }
  | .SelectionChange _ _ _ => { st with in_backspace_burst := false }
  | _ => { st with in_backspace_burst := false }

/-- Operation `process_event`, from `feature.rs`, assembled from its phases in
source order. -/
def process_event (st : FeatureExtractor) (e : InputEvent) : FeatureExtractor :=
  let ts := e.ts
  dispatch_event (timing_update (first_action_update (start_update (record_event st e) ts) e) ts) e ts

/-- Pushing a whole stream into an extractor, in arrival order. -/
def replayEvents (es : List InputEvent) (st : FeatureExtractor) : FeatureExtractor :=
  es.foldl process_event st

/-- Modelled from the spec: `get_events` is the immutable view of the
event log (`api.rs` calls it for export; the method body is absent from
`feature.rs`). -/
def get_events (st : FeatureExtractor) : List InputEvent :=
  st.events

/-- View `extract_source_features`, lines 141-163 of `feature.rs`.  The
`total_duration` argument is accepted and unused, exactly as in the
source. -/
def extract_source_features (st : FeatureExtractor) (_total_duration : Nat) : SourceFeatures :=
  let total_chars := st.total_typed_chars + st.total_pasted_chars
  let pr : ℚ :=
    if total_chars > 0 then (st.total_pasted_chars : ℚ) / (total_chars : ℚ) else 0
  let source_type :=
    if st.total_typed_chars = 0 ∧ st.total_pasted_chars > 0 then SourceType.PasteOnly
    else if st.total_pasted_chars = 0 ∧ st.total_typed_chars > 0 then SourceType.TypedOnly
    else SourceType.Mixed
  { source_type := source_type
    paste_ratio := pr
    paste_events := st.paste_events
    first_action := st.first_action.getD FirstAction.Other }

/-- View `extract_timing_features`, lines 165-189 of `feature.rs`.  The
source hardcodes `pre_submit_pause_ms` to 0 (its comment calls this a
simplification). -/
def extract_timing_features (st : FeatureExtractor) : TimingFeatures :=
  let last_ts := st.last_event_time.getD 0
  let start := st.start_time.getD last_ts
  let total_duration_ms := last_ts - start
  let avg : ℚ :=
    if total_duration_ms > 0 then
      (st.total_typed_chars : ℚ) / ((total_duration_ms : ℚ) / 1000)
    else 0
  { total_duration_ms := total_duration_ms
    avg_chars_per_sec := avg
    typing_bursts := st.typing_bursts
    long_pause_count := st.long_pause_count
    pre_submit_pause_ms := 0 }

/-- View `extract_editing_features`.  The counts are from lines 191-199 of
`feature.rs`.  Modelled from the spec: the `efficiency_score` field and
the `final_char_count` argument (which `api.rs` passes) are absent from
`feature.rs`; the spec defines
`efficiency_score = clamp(final_char_count / max(1, total_typed_chars), 0.0, 1.0)`. -/
def extract_editing_features (st : FeatureExtractor) (final_char_count : Nat) : EditingFeatures :=
  { backspace_count := st.backspace_count
    backspace_burst_count := st.backspace_burst_count
    undo_count := st.undo_count
    redo_count := st.redo_count
    selection_edit_count := st.selection_edit_count
    efficiency_score :=
      min (max ((final_char_count : ℚ) / ((max 1 st.total_typed_chars : Nat) : ℚ)) 0) 1 }

/-- Rust `str::lines`: split on a newline, drop an optional trailing
carriage return from each line, and do not produce a trailing empty line
for a terminating newline; the empty string has no lines. -/
def rustLines (s : String) : List String :=
  if s.isEmpty then []
  else
    let parts := s.splitOn "\n"
    let parts := if s.endsWith "\n" then parts.dropLast else parts
    parts.map (fun l => if l.endsWith "\r" then l.dropRight 1 else l)

/-- Rust `str::contains` with a string pattern (substring test). -/
def containsSubstr (s pat : String) : Bool :=
  (s.splitOn pat).length > 1

/-- Rust `str::trim_start`: drop leading whitespace characters. -/
def trimStart (s : String) : String :=
  String.mk (s.toList.dropWhile Char.isWhitespace)

/-- Whether a trimmed line looks like a bullet or ordered-list item,
from the filter inside `StructureAnalyzer::analyze`. -/
def bulletLike (l : String) : Bool :=
  let trimmed := trimStart l
  trimmed.startsWith "- " || trimmed.startsWith "* " ||
    ((match trimmed.toList with
      | [] => false
      | c :: _ => c.isDigit) && containsSubstr trimmed ". ")

/-- Hiragana, Katakana or CJK Unified Ideographs, per the spec ranges. -/
def isJapaneseChar (c : Char) : Bool :=
  (0x3040 ≤ c.toNat && c.toNat ≤ 0x309F) ||
  (0x30A0 ≤ c.toNat && c.toNat ≤ 0x30FF) ||
  (0x4E00 ≤ c.toNat && c.toNat ≤ 0x9FFF)

namespace StructureAnalyzer

/-- Function `StructureAnalyzer::analyze`, lines 205-240 of `feature.rs`.  The
seven fields computed there are translated directly; the five Japanese
heuristics are modelled from the spec (section 4.2) because the analyzer
in `feature.rs` does not populate them although `profile.rs` declares
them and `rules.rs` reads them. -/
def analyze (text : String) : StructureFeatures :=
  let char_count := text.length
  let lines := rustLines text
  let line_count := lines.length
  let avg_line_length : ℚ :=
    if line_count > 0 then (char_count : ℚ) / (line_count : ℚ) else 0
  let bullet_lines := (lines.filter bulletLike).length
  let has_code_block :=
    containsSubstr text "```" ||
      lines.any (fun l => l.startsWith "    " || l.startsWith "\t")
  let question_like := text.trim.endsWith "?" || containsSubstr text "?"
  let command_like :=
    let lower := text.toLower
    lower.startsWith "please" || lower.startsWith "write" || lower.startsWith "create"
  let japanese_detected := text.toList.any isJapaneseChar
  { char_count := char_count
    line_count := line_count
    avg_line_length := avg_line_length
    bullet_lines := bullet_lines
    has_code_block := has_code_block
    question_like := question_like
    command_like := command_like
    japanese_detected := japanese_detected
    request_summary :=
      containsSubstr text.toLower "summarize" || containsSubstr text "要約"
    request_implementation :=
      containsSubstr text.toLower "implement" || containsSubstr text.toLower "write code" ||
        containsSubstr text.toLower "function" || containsSubstr text "実装"
    is_polite :=
      japanese_detected &&
        (containsSubstr text "ます" || containsSubstr text "です" ||
          containsSubstr text "ください" || containsSubstr text "お願い")
    is_direct :=
      japanese_detected &&
        (containsSubstr text "だ。" || containsSubstr text "である" ||
          text.endsWith "やれ" || text.endsWith "しろ") }

end StructureAnalyzer

/-- Operation `HashSet::insert`: add the element if it is not already present.
The list keeps the set contents in insertion order; the order in which
`into_iter` later emits them is a separate parameter of the engine. -/
def hsInsert {α : Type} [DecidableEq α] (l : List α) (a : α) : List α :=
  if a ∈ l then l else l ++ [a]

/-- Rule 1 condition, `rules.rs` line 23. -/
abbrev r1_cond (source : SourceFeatures) (stf : StructureFeatures) : Prop :=
  SourceFeatures.paste_ratio source > 0.8 ∧ stf.line_count ≥ 3

/-- Rule 2 condition, `rules.rs` lines 31-33. -/
abbrev r2_cond (source : SourceFeatures) (timing : TimingFeatures) (editing : EditingFeatures) : Prop :=
  source.source_type = SourceType.TypedOnly ∧ timing.total_duration_ms > 30000 ∧
    editing.backspace_count > 20

/-- Rule 3 condition, `rules.rs` line 42. -/
abbrev r3_cond (stf : StructureFeatures) : Prop :=
  stf.line_count ≤ 2 ∧ stf.char_count < 40

/-- Rule 4 condition, `rules.rs` line 50. -/
abbrev r4_cond (source : SourceFeatures) (editing : EditingFeatures) : Prop :=
  source.source_type = SourceType.Mixed ∧ editing.selection_edit_count > 2

/-- Rule 5 condition, `rules.rs` line 56. -/
abbrev r5_cond (stf : StructureFeatures) : Prop :=
  stf.bullet_lines > 2

namespace RuleEngine

/-- The mode set built by rules 1-9b plus the fallback, `rules.rs`
lines 16-105, in insertion order. -/
def rule_modes (source : SourceFeatures) (timing : TimingFeatures)
    (editing : EditingFeatures) (stf : StructureFeatures) : List AnswerMode :=
  let ms : List AnswerMode := []
  let ms := if r1_cond source stf then
    hsInsert (hsInsert ms AnswerMode.Summarize) AnswerMode.Structure else ms
  let ms := if r2_cond source timing editing then
    hsInsert (hsInsert ms AnswerMode.Refine) AnswerMode.ClarifyQuestion else ms
  let ms := if r3_cond stf then
    hsInsert (hsInsert ms AnswerMode.Explore) AnswerMode.ClarifyQuestion else ms
  let ms := if r4_cond source editing then hsInsert ms AnswerMode.Complete else ms
  let ms := if r5_cond stf then hsInsert ms AnswerMode.Structure else ms
  let ms := if stf.question_like then hsInsert ms AnswerMode.ClarifyQuestion else ms
  let ms := if stf.request_summary then hsInsert ms AnswerMode.Summarize else ms
  let ms := if stf.request_implementation then
    hsInsert (hsInsert ms AnswerMode.Complete) AnswerMode.Structure else ms
  if ms.isEmpty then hsInsert ms AnswerMode.Explore else ms

/-- The scope hint after the last-write-wins chain of rules 1, 3, 5 and
9a, `rules.rs`. -/
def rule_scope (source : SourceFeatures) (stf : StructureFeatures) : ScopeHint :=
  let scope := ScopeHint.Medium
  let scope := if r1_cond source stf then ScopeHint.Broad else scope
  let scope := if r3_cond stf then ScopeHint.Broad else scope
  let scope := if r5_cond stf then ScopeHint.Narrow else scope
  if stf.request_summary then ScopeHint.Broad else scope

/-- The tone hint after rules 7, 8 and 9b, `rules.rs`. -/
def rule_tone (stf : StructureFeatures) : ToneHint :=
  let tone := ToneHint.Neutral
  let tone := if stf.command_like then ToneHint.Direct else tone
  let tone :=
    if stf.japanese_detected then
      if stf.is_polite then ToneHint.Gentle
      else if stf.is_direct then ToneHint.Direct
      else tone
    else tone
  if stf.request_implementation then ToneHint.Direct else tone

/-- The depth hint after rules 2 and 8, `rules.rs`. -/
def rule_depth (source : SourceFeatures) (timing : TimingFeatures)
    (editing : EditingFeatures) (stf : StructureFeatures) : DepthHint :=
  let depth := DepthHint.Normal
  let depth := if r2_cond source timing editing then DepthHint.Deep else depth
  if stf.japanese_detected ∧ stf.char_count > 500 then DepthHint.Deep else depth

/-- The accumulated confidence before the final cap, `rules.rs`. -/
def rule_confidence_raw (source : SourceFeatures) (timing : TimingFeatures)
    (editing : EditingFeatures) (stf : StructureFeatures) : ℚ :=
  let c : ℚ := 0.5
  let c := if r1_cond source stf then c + 0.2 else c
  let c := if r2_cond source timing editing then c + 0.2 else c
  let c := if r3_cond stf then c + 0.1 else c
  let c := if r4_cond source editing then c + 0.2 else c
  let c := if r5_cond stf then c + 0.1 else c
  let c := if stf.question_like then c + 0.1 else c
  let c := if stf.command_like then c + 0.1 else c
  let c := if stf.japanese_detected then c + 0.1 else c
  let c := if stf.request_summary then c + 0.3 else c
  if stf.request_implementation then c + 0.3 else c

/-- The cap `confidence.min(1.0)`, `rules.rs` line 153. -/
def rule_confidence (source : SourceFeatures) (timing : TimingFeatures)
    (editing : EditingFeatures) (stf : StructureFeatures) : ℚ :=
  min (rule_confidence_raw source timing editing stf) 1

/-- The user-state set, `rules.rs` lines 113-143, in insertion order. -/
def rule_states (source : SourceFeatures) (timing : TimingFeatures)
    (editing : EditingFeatures) : List UserState :=
  let us : List UserState := []
  let us := if timing.avg_chars_per_sec < 2 ∧ timing.long_pause_count > 2 then
    hsInsert us UserState.Hesitant else us
  let us := if timing.avg_chars_per_sec > 5 ∧ timing.long_pause_count = 0 then
    hsInsert us UserState.Flowing else us
  let us := if editing.backspace_count > 10 ∨ editing.selection_edit_count > 2 then
    hsInsert us UserState.Editing else us
  let us := if SourceFeatures.paste_ratio source > 0.5 then
    hsInsert us UserState.Pasting else us
  let us := if timing.typing_bursts > 5 ∧ timing.avg_chars_per_sec < 3 then
    hsInsert us UserState.Scattered else us
  if timing.avg_chars_per_sec > 4 ∧ editing.backspace_count < 5 then
    hsInsert us UserState.Focused else us

/-- Function `RuleEngine::apply`, `rules.rs` lines 10-155.  The two `HashSet`
contents are deterministic; the order in which `into_iter().collect()`
emits them is not fixed by the source (the sort is commented out at line
110), so the emission orders are passed in as the functions `sigma` and
`tau`, which model the iteration order of the two hash sets. -/
def apply (sigma : List AnswerMode → List AnswerMode)
    (tau : List UserState → List UserState)
    (source : SourceFeatures) (timing : TimingFeatures)
    (editing : EditingFeatures) (stf : StructureFeatures) : AnswerTags :=
  { answer_mode := sigma (rule_modes source timing editing stf)
    scope_hint := rule_scope source stf
    tone_hint := rule_tone stf
    depth_hint := rule_depth source timing editing stf
    user_state := tau (rule_states source timing editing)
    confidence := rule_confidence source timing editing stf }

end RuleEngine

/-- The session registry of `api.rs`: a map from message id to extractor
state, modelled as a function into `Option` (the mutex wrapper is a
concurrency artifact outside the shallow embedding). -/
def Registry : Type := String → Option FeatureExtractor

/-- An empty registry, as built by `IflCore::new`. -/
def Registry.empty : Registry := fun _ => none

/-- Operation `HashMap::insert` on the registry. -/
def Registry.insert (r : Registry) (id : String) (ex : FeatureExtractor) : Registry :=
  fun k => if k = id then some ex else r k

/-- Operation `HashMap::remove` on the registry. -/
def Registry.remove (r : Registry) (id : String) : Registry :=
  fun k => if k = id then none else r k

/-- The error message of `api.rs` for an unknown id. -/
def notFoundMsg (id : String) : String :=
  "Message ID " ++ id ++ " not found"

/-- Operation `start_message`, `api.rs` lines 21-29.  The fresh UUID is supplied
by the environment, so the new id is a parameter here. -/
def start_message (r : Registry) (id : String) : Registry :=
  r.insert id FeatureExtractor.new

/-- Operation `push_event`, `api.rs` lines 31-42. -/
def push_event (r : Registry) (id : String) (e : InputEvent) : Except String Registry :=
  match r id with
  | some ex => Except.ok (r.insert id (process_event ex e))
  | none => Except.error (notFoundMsg id)

/-- The profile constructed by the success branches of
`finalize_message` and `preview_message` in `api.rs` (lines 50-69 and
83-102): extract the four feature bundles, run the rule engine, and
assemble the profile.  The JSON pretty-printer applied to the result is
a boundary collaborator and is not modelled; the profile value itself is
returned. -/
def finalizeProfile (sigma : List AnswerMode → List AnswerMode)
    (tau : List UserState → List UserState)
    (message_id : String) (ex : FeatureExtractor) (final_text : String) : InputProfile :=
  let source := extract_source_features ex 0
  let timing := extract_timing_features ex
  let structF := StructureAnalyzer.analyze final_text
  let editing := extract_editing_features ex structF.char_count
  let tags := RuleEngine.apply sigma tau source timing editing structF
  { message_id := message_id
    source := source
    timing := timing
    editing := editing
    structure_features := structF
    tags := tags }

/-- Operation `finalize_message`, `api.rs` lines 44-75: remove the session, build
the profile from it.  The mutated registry is returned alongside the
result. -/
def finalize_message (sigma : List AnswerMode → List AnswerMode)
    (tau : List UserState → List UserState)
    (r : Registry) (id : String) (final_text : String) :
    Except String (InputProfile × Registry) :=
  match r id with
  | some ex => Except.ok (finalizeProfile sigma tau id ex final_text, r.remove id)
  | none => Except.error (notFoundMsg id)

/-- Operation `preview_message`, `api.rs` lines 77-108: like finalize but
non-destructive. -/
def preview_message (sigma : List AnswerMode → List AnswerMode)
    (tau : List UserState → List UserState)
    (r : Registry) (id : String) (current_text : String) :
    Except String InputProfile :=
  match r id with
  | some ex => Except.ok (finalizeProfile sigma tau id ex current_text)
  | none => Except.error (notFoundMsg id)

/-- Operation `export_events`, `api.rs` lines 110-123, at the session level.
Modelled from the spec: serialization of the event list is exact
round-trip (a boundary responsibility), so export yields the event log
itself via `get_events`. -/
def exportEvents (ex : FeatureExtractor) : List InputEvent :=
  get_events ex

/-- Operation `import_events`, `api.rs` lines 125-134, at the session level: a
fresh session into which every exported event is pushed in order. -/
def importEvents (es : List InputEvent) : FeatureExtractor :=
  replayEvents es FeatureExtractor.new

/-- Non-decreasing timestamps along a stream, as a decidable check. -/
def tsMonoB : List InputEvent → Bool
  | [] => true
  | [_] => true
  | a :: b :: r => decide (InputEvent.ts a ≤ InputEvent.ts b) && tsMonoB (b :: r)

/-- Scenario S5 of the spec and of `tests/scenarios.rs`
(`test_scenario_selection_replace`): type "Hello", select it all,
type "Hi" over the selection, submit. -/
def s5Events : List InputEvent :=
  [ InputEvent.KeyInsert 'H' 1000
  , InputEvent.KeyInsert 'e' 1100
  , InputEvent.KeyInsert 'l' 1200
  , InputEvent.KeyInsert 'l' 1300
  , InputEvent.KeyInsert 'o' 1400
  , InputEvent.SelectionChange 0 5 1500
  , InputEvent.KeyInsert 'H' 2000
  , InputEvent.KeyInsert 'i' 2100
  , InputEvent.Submit 2200 ]

/-- Scenario S6 of the spec and of `tests/scenarios.rs`
(`test_efficiency_score`): type "Hello", backspace twice, type "p!",
submit; seven typed characters in total. -/
def s6Events : List InputEvent :=
  [ InputEvent.KeyInsert 'H' 1000
  , InputEvent.KeyInsert 'e' 1100
  , InputEvent.KeyInsert 'l' 1200
  , InputEvent.KeyInsert 'l' 1300
  , InputEvent.KeyInsert 'o' 1400
  , InputEvent.KeyDelete DeleteKind.Backspace 1 1500
  , InputEvent.KeyDelete DeleteKind.Backspace 1 1600
  , InputEvent.KeyInsert 'p' 1700
  , InputEvent.KeyInsert '!' 1800
  , InputEvent.Submit 1900 ]

/-- A minimal session with a Submit event: one keystroke at 1000 ms and
a Submit at 3000 ms, so the pause before submit is 2000 ms. -/
def submitPauseEvents : List InputEvent :=
  [ InputEvent.KeyInsert 'a' 1000
  , InputEvent.Submit 3000 ]

/-- A feature bundle input on which only rule 1 of the engine fires, so
the mode set is exactly the two-element set inserted by rule 1. -/
def c6Source : SourceFeatures :=
  { source_type := SourceType.Mixed
    paste_ratio := 0.9
    paste_events := 1
    first_action := FirstAction.Paste }

/-- Timing bundle for the rule-1-only input: all zero. -/
def c6Timing : TimingFeatures :=
  { total_duration_ms := 0
    avg_chars_per_sec := 0
    typing_bursts := 0
    long_pause_count := 0
    pre_submit_pause_ms := 0 }

/-- Editing bundle for the rule-1-only input: all zero. -/
def c6Editing : EditingFeatures :=
  { backspace_count := 0
    backspace_burst_count := 0
    undo_count := 0
    redo_count := 0
    selection_edit_count := 0
    efficiency_score := 0 }

/-- Structure bundle for the rule-1-only input: three lines, a hundred
characters, no other trigger. -/
def c6Structure : StructureFeatures :=
  { char_count := 100
    line_count := 3
    avg_line_length := 0
    bullet_lines := 0
    has_code_block := false
    question_like := false
    command_like := false
    japanese_detected := false
    request_summary := false
    request_implementation := false
    is_polite := false
    is_direct := false }

/-- Whether a stream contains a `Submit` event. -/
def hasSubmit (es : List InputEvent) : Bool :=
  es.any fun e => match e with
    | InputEvent.Submit _ => true
    | _ => false

/-- The burst-accounting invariant of the extractor: before the first
event the two counters agree (both zero at creation); afterwards
`typing_bursts` exceeds `long_pause_count` by exactly one, since the
first event opens a burst and every long pause increments both. -/
def burstInv (st : FeatureExtractor) : Prop :=
  if st.last_event_time.isSome then st.typing_bursts = st.long_pause_count + 1
  else st.typing_bursts = st.long_pause_count

/-!
Helper lemmas: field preservation across the phases of `process_event`.
-/

theorem start_update_preserves (st : FeatureExtractor) (ts : Nat) :
    (start_update st ts).selection_edit_count = st.selection_edit_count ∧
    (start_update st ts).backspace_count = st.backspace_count ∧
    (start_update st ts).in_backspace_burst = st.in_backspace_burst ∧
    (start_update st ts).typing_bursts = st.typing_bursts ∧
    (start_update st ts).long_pause_count = st.long_pause_count ∧
    (start_update st ts).last_event_time = st.last_event_time ∧
    (start_update st ts).events = st.events := by
  unfold start_update
  split <;> simp

theorem first_action_update_preserves (st : FeatureExtractor) (e : InputEvent) :
    (first_action_update st e).selection_edit_count = st.selection_edit_count ∧
    (first_action_update st e).backspace_count = st.backspace_count ∧
    (first_action_update st e).in_backspace_burst = st.in_backspace_burst ∧
    (first_action_update st e).typing_bursts = st.typing_bursts ∧
    (first_action_update st e).long_pause_count = st.long_pause_count ∧
    (first_action_update st e).last_event_time = st.last_event_time ∧
    (first_action_update st e).events = st.events := by
  unfold first_action_update
  split
  · split <;> simp
  · simp

theorem timing_update_preserves (st : FeatureExtractor) (ts : Nat) :
    (timing_update st ts).selection_edit_count = st.selection_edit_count ∧
    (timing_update st ts).backspace_count = st.backspace_count ∧
    (timing_update st ts).in_backspace_burst = st.in_backspace_burst ∧
    (timing_update st ts).events = st.events := by
  unfold timing_update
  split
  · split <;> simp
  · simp

theorem timing_update_last (st : FeatureExtractor) (ts : Nat) :
    (timing_update st ts).last_event_time = some ts := by
  unfold timing_update
  split
  · split <;> simp
  · simp

theorem dispatch_event_preserves (st : FeatureExtractor) (e : InputEvent) (ts : Nat) :
    (dispatch_event st e ts).selection_edit_count = st.selection_edit_count ∧
    (dispatch_event st e ts).typing_bursts = st.typing_bursts ∧
    (dispatch_event st e ts).long_pause_count = st.long_pause_count ∧
    (dispatch_event st e ts).last_event_time = st.last_event_time ∧
    (dispatch_event st e ts).events = st.events := by
  unfold dispatch_event
  cases e <;> simp
  split
  · split <;> simp
  · simp

theorem process_event_sel (st : FeatureExtractor) (e : InputEvent) :
    (process_event st e).selection_edit_count = st.selection_edit_count := by
  unfold process_event
  rw [(dispatch_event_preserves _ _ _).1, (timing_update_preserves _ _).1,
    (first_action_update_preserves _ _).1, (start_update_preserves _ _).1]
  rfl

theorem process_event_events (st : FeatureExtractor) (e : InputEvent) :
    (process_event st e).events = st.events ++ [e] := by
  unfold process_event
  rw [(dispatch_event_preserves _ _ _).2.2.2.2, (timing_update_preserves _ _).2.2.2,
    (first_action_update_preserves _ _).2.2.2.2.2.2, (start_update_preserves _ _).2.2.2.2.2.2]
  rfl

theorem process_event_last_isSome (st : FeatureExtractor) (e : InputEvent) :
    ((process_event st e).last_event_time).isSome = true := by
  unfold process_event
  rw [(dispatch_event_preserves _ _ _).2.2.2.1, timing_update_last]
  rfl

/-- Claim C1 support.  The source hardcodes the pre-submit pause to
zero for every extractor state; on the two-event session with a
keystroke at 1000 ms and `Submit` at 3000 ms the specified value would
be 2000 ms, yet the extractor reports 0. -/
theorem pre_submit_pause_always_zero :
    (∀ st : FeatureExtractor, (extract_timing_features st).pre_submit_pause_ms = 0) ∧
    hasSubmit submitPauseEvents = true ∧
    (extract_timing_features (replayEvents submitPauseEvents FeatureExtractor.new)).pre_submit_pause_ms = 0 ∧
    (extract_timing_features (replayEvents submitPauseEvents FeatureExtractor.new)).pre_submit_pause_ms ≠ 3000 - 1000 := by
  refine ⟨fun st => rfl, by decide, by decide, by decide⟩

/-- Claim C2 support.  No branch of `process_event` ever changes
`selection_edit_count` (the `SelectionChange` arm is a placeholder), so
on scenario S5 the finalized profile reports 0 although the test
`test_scenario_selection_replace` asserts at least 1. -/
theorem selection_edit_count_never_incremented :
    (∀ (st : FeatureExtractor) (e : InputEvent),
      (process_event st e).selection_edit_count = st.selection_edit_count) ∧
    (finalizeProfile id id "s5" (replayEvents s5Events FeatureExtractor.new) "Hi").editing.selection_edit_count = 0 := by
  refine ⟨process_event_sel, by decide⟩

/-- Claim C3 counterexample.  Processing `KeyDelete{Delete, count=3}` on
a fresh extractor does not add 3 to `backspace_count`, and processing
`Cut{length=4}` does not add 4. -/
theorem delete_and_cut_do_not_count_cex :
    (process_event FeatureExtractor.new (InputEvent.KeyDelete DeleteKind.Delete 3 1000)).backspace_count
        ≠ FeatureExtractor.new.backspace_count + 3 ∧
    (process_event FeatureExtractor.new (InputEvent.Cut 4 1000)).backspace_count
        ≠ FeatureExtractor.new.backspace_count + 4 := by
  constructor <;> decide

/-- Claim C3 amended.  `KeyDelete` with kind `Delete` and `Cut` leave
`backspace_count` unchanged and clear the backspace-burst flag. -/
theorem delete_and_cut_clear_burst_only (st : FeatureExtractor) (c ts l ts2 : Nat) :
    ((process_event st (InputEvent.KeyDelete DeleteKind.Delete c ts)).backspace_count = st.backspace_count ∧
      (process_event st (InputEvent.KeyDelete DeleteKind.Delete c ts)).in_backspace_burst = false) ∧
    ((process_event st (InputEvent.Cut l ts2)).backspace_count = st.backspace_count ∧
      (process_event st (InputEvent.Cut l ts2)).in_backspace_burst = false) := by
  unfold process_event
  refine ⟨⟨?_, ?_⟩, ⟨?_, ?_⟩⟩ <;>
    simp [dispatch_event, (timing_update_preserves _ _).2.1,
      (first_action_update_preserves _ _).2.1, (start_update_preserves _ _).2.1,
      record_event]

/-- Claim C7.  When a session id is present, `finalize_message` succeeds
and removes the session, and a second `finalize_message` on the same id
fails with the not-found error. -/
theorem finalize_twice_notFound (sigma : List AnswerMode → List AnswerMode)
    (tau : List UserState → List UserState)
    (r : Registry) (mid t : String) (h : (r mid).isSome = true) :
    (∃ p, finalize_message sigma tau r mid t = Except.ok (p, r.remove mid)) ∧
    finalize_message sigma tau (r.remove mid) mid t = Except.error (notFoundMsg mid) := by
  constructor
  · cases hr : r mid with
    | none => rw [hr] at h; cases h
    | some ex => exact ⟨finalizeProfile sigma tau mid ex t, by simp [finalize_message, hr]⟩
  · have hnone : (r.remove mid) mid = none := by simp [Registry.remove]
    simp [finalize_message, hnone]

/-- Claim C7 witness at a concrete registry with one fresh session. -/
theorem finalize_twice_notFound_witness :
    ((start_message Registry.empty "s1") "s1").isSome = true ∧
    (∃ p, finalize_message id id (start_message Registry.empty "s1") "s1" "done"
        = Except.ok (p, (start_message Registry.empty "s1").remove "s1")) ∧
    finalize_message id id ((start_message Registry.empty "s1").remove "s1") "s1" "done"
        = Except.error (notFoundMsg "s1") := by
  have h := finalize_twice_notFound id id (start_message Registry.empty "s1") "s1" "done"
    (by decide)
  exact ⟨by decide, h.1, h.2⟩

/-- Claim C10.  Previewing a freshly started session with no events
succeeds and reports zero duration, zero speed, zero bursts, zero paste
ratio, source type `Mixed` and first action `Other`. -/
theorem preview_fresh_session (t : String) (sigma : List AnswerMode → List AnswerMode)
    (tau : List UserState → List UserState) :
    preview_message sigma tau (start_message Registry.empty "s1") "s1" t
        = Except.ok (finalizeProfile sigma tau "s1" FeatureExtractor.new t) ∧
    (finalizeProfile sigma tau "s1" FeatureExtractor.new t).timing.total_duration_ms = 0 ∧
    (finalizeProfile sigma tau "s1" FeatureExtractor.new t).timing.avg_chars_per_sec = 0 ∧
    (finalizeProfile sigma tau "s1" FeatureExtractor.new t).timing.typing_bursts = 0 ∧
    SourceFeatures.paste_ratio (finalizeProfile sigma tau "s1" FeatureExtractor.new t).source = 0 ∧
    (finalizeProfile sigma tau "s1" FeatureExtractor.new t).source.source_type = SourceType.Mixed ∧
    (finalizeProfile sigma tau "s1" FeatureExtractor.new t).source.first_action = FirstAction.Other := by
  refine ⟨?_, rfl, ?_, rfl, ?_, rfl, rfl⟩
  · have hget : (start_message Registry.empty "s1") "s1" = some FeatureExtractor.new := by
      simp [start_message, Registry.insert]
    simp [preview_message, hget]
  · simp [finalizeProfile, extract_timing_features, FeatureExtractor.new]
  · simp [finalizeProfile, extract_source_features, FeatureExtractor.new]

theorem replayEvents_events (es : List InputEvent) :
    ∀ st : FeatureExtractor, (replayEvents es st).events = st.events ++ es := by
  induction es with
  | nil => intro st; simp [replayEvents]
  | cons e rest ih =>
      intro st
      have hstep : replayEvents (e :: rest) st = replayEvents rest (process_event st e) := rfl
      rw [hstep, ih, process_event_events]
      simp

/-- Claim C4.  Exporting the event log of a session built from a
non-decreasing stream and replaying it into a fresh session reproduces
the same extractor state, hence the same finalized profile for the same
final text (with the hash-set iteration orders held fixed). -/
theorem export_import_roundtrip (S : List InputEvent) (T : String)
    (sigma : List AnswerMode → List AnswerMode)
    (tau : List UserState → List UserState)
    (mid : String) (h : tsMonoB S = true) :
    finalizeProfile sigma tau mid (importEvents (exportEvents (replayEvents S FeatureExtractor.new))) T
      = finalizeProfile sigma tau mid (replayEvents S FeatureExtractor.new) T := by
  have hx : exportEvents (replayEvents S FeatureExtractor.new) = S := by
    rw [exportEvents, get_events, replayEvents_events]
    rfl
  rw [hx]
  rfl

/-- Claim C4 witness at a concrete two-event stream. -/
theorem export_import_roundtrip_witness :
    tsMonoB [InputEvent.KeyInsert 'a' 1, InputEvent.Submit 2] = true ∧
    finalizeProfile id id "m"
        (importEvents (exportEvents
          (replayEvents [InputEvent.KeyInsert 'a' 1, InputEvent.Submit 2] FeatureExtractor.new))) "a"
      = finalizeProfile id id "m"
          (replayEvents [InputEvent.KeyInsert 'a' 1, InputEvent.Submit 2] FeatureExtractor.new) "a" :=
  ⟨by decide, export_import_roundtrip _ "a" id id "m" (by decide)⟩

theorem burstInv_new : burstInv FeatureExtractor.new := by
  simp [burstInv, FeatureExtractor.new]

theorem timing_update_counts (st : FeatureExtractor) (ts : Nat) :
    ((timing_update st ts).typing_bursts = st.typing_bursts + 1 ∧
        (timing_update st ts).long_pause_count = st.long_pause_count ∧
        st.last_event_time = none) ∨
    ((timing_update st ts).typing_bursts = st.typing_bursts + 1 ∧
        (timing_update st ts).long_pause_count = st.long_pause_count + 1 ∧
        st.last_event_time ≠ none) ∨
    ((timing_update st ts).typing_bursts = st.typing_bursts ∧
        (timing_update st ts).long_pause_count = st.long_pause_count ∧
        st.last_event_time ≠ none) := by
  cases hl : st.last_event_time with
  | none =>
      refine Or.inl ⟨?_, ?_, rfl⟩ <;> simp [timing_update, hl]
  | some last =>
      by_cases hgt : ts - last > 1500
      · refine Or.inr (Or.inl ⟨?_, ?_, by simp [hl]⟩) <;> simp [timing_update, hl, hgt]
      · refine Or.inr (Or.inr ⟨?_, ?_, by simp [hl]⟩) <;> simp [timing_update, hl, hgt]

theorem process_event_burstInv (st : FeatureExtractor) (e : InputEvent)
    (h : burstInv st) : burstInv (process_event st e) := by
  unfold burstInv at h ⊢
  rw [process_event_last_isSome]
  simp only [if_true]
  have hmid :
      (process_event st e).typing_bursts
          = (timing_update (first_action_update (start_update (record_event st e) e.ts) e) e.ts).typing_bursts ∧
      (process_event st e).long_pause_count
          = (timing_update (first_action_update (start_update (record_event st e) e.ts) e) e.ts).long_pause_count := by
    unfold process_event
    exact ⟨(dispatch_event_preserves _ _ _).2.1, (dispatch_event_preserves _ _ _).2.2.1⟩
  have hpre :
      (first_action_update (start_update (record_event st e) e.ts) e).typing_bursts = st.typing_bursts ∧
      (first_action_update (start_update (record_event st e) e.ts) e).long_pause_count = st.long_pause_count ∧
      (first_action_update (start_update (record_event st e) e.ts) e).last_event_time = st.last_event_time := by
    refine ⟨?_, ?_, ?_⟩
    · rw [(first_action_update_preserves _ _).2.2.2.1, (start_update_preserves _ _).2.2.2.1]; rfl
    · rw [(first_action_update_preserves _ _).2.2.2.2.1, (start_update_preserves _ _).2.2.2.2.1]; rfl
    · rw [(first_action_update_preserves _ _).2.2.2.2.2.1, (start_update_preserves _ _).2.2.2.2.2.1]; rfl
  rcases timing_update_counts (first_action_update (start_update (record_event st e) e.ts) e) e.ts with
    ⟨hb, hp, hn⟩ | ⟨hb, hp, hn⟩ | ⟨hb, hp, hn⟩ <;>
    rw [hpre.2.2] at hn <;>
    rw [hmid.1, hmid.2, hb, hp, hpre.1, hpre.2.1] <;>
    [skip; skip; skip]
  · rw [hn] at h
    simp at h
    omega
  · have : st.last_event_time.isSome = true := Option.ne_none_iff_isSome.mp hn
    rw [this] at h
    simp at h
    omega
  · have : st.last_event_time.isSome = true := Option.ne_none_iff_isSome.mp hn
    rw [this] at h
    simp at h
    omega

theorem replayEvents_burstInv (es : List InputEvent) :
    ∀ st : FeatureExtractor, burstInv st → burstInv (replayEvents es st) := by
  induction es with
  | nil => intro st h; exact h
  | cons e rest ih =>
      intro st h
      exact ih (process_event st e) (process_event_burstInv st e h)

theorem replayEvents_cons_isSome (es : List InputEvent) :
    ∀ (st : FeatureExtractor) (e : InputEvent),
      ((replayEvents (e :: es) st).last_event_time).isSome = true := by
  induction es with
  | nil => intro st e; exact process_event_last_isSome st e
  | cons e2 rest ih => intro st e; exact ih (process_event st e) e2

/-- Claim C9.  After any nonempty stream, the extractor has opened at
least one typing burst and has at most one long pause per closed burst
boundary. -/
theorem typing_bursts_invariant (es : List InputEvent) (h : es ≠ []) :
    1 ≤ (replayEvents es FeatureExtractor.new).typing_bursts ∧
    (replayEvents es FeatureExtractor.new).long_pause_count
        ≤ (replayEvents es FeatureExtractor.new).typing_bursts - 1 := by
  obtain ⟨e, es2, rfl⟩ := List.exists_cons_of_ne_nil h
  have hinv := replayEvents_burstInv (e :: es2) FeatureExtractor.new burstInv_new
  have hsome := replayEvents_cons_isSome es2 FeatureExtractor.new e
  unfold burstInv at hinv
  rw [hsome] at hinv
  simp at hinv
  omega

/-- Claim C9 witness at the one-event stream consisting of a Submit. -/
theorem typing_bursts_invariant_witness :
    ([InputEvent.Submit 0] ≠ ([] : List InputEvent)) ∧
    1 ≤ (replayEvents [InputEvent.Submit 0] FeatureExtractor.new).typing_bursts ∧
    (replayEvents [InputEvent.Submit 0] FeatureExtractor.new).long_pause_count
        ≤ (replayEvents [InputEvent.Submit 0] FeatureExtractor.new).typing_bursts - 1 := by
  have h := typing_bursts_invariant [InputEvent.Submit 0] (by decide)
  exact ⟨by decide, h.1, h.2⟩

theorem eff_formula_rfl (st : FeatureExtractor) (T : String)
    (sigma : List AnswerMode → List AnswerMode) (tau : List UserState → List UserState)
    (mid : String) :
    EditingFeatures.efficiency_score (finalizeProfile sigma tau mid st T).editing
      = min (max ((T.length : ℚ) / ((max 1 st.total_typed_chars : Nat) : ℚ)) 0) 1 := rfl

/-- Claim C5 counterexample.  With no typing and an empty final text the
efficiency score is 0, not the claimed 1. -/
theorem efficiency_empty_text_cex :
    FeatureExtractor.new.total_typed_chars = 0 ∧
    EditingFeatures.efficiency_score (finalizeProfile id id "m" FeatureExtractor.new "").editing = 0 ∧
    ((0 : ℚ) ≠ 1) := by
  refine ⟨rfl, ?_, by norm_num⟩
  have h0 : ("".length : Nat) = 0 := rfl
  have ht : FeatureExtractor.new.total_typed_chars = 0 := rfl
  rw [eff_formula_rfl, h0, ht]
  norm_num

/-- Claim C5 amended.  The efficiency score of a finalized profile is
the clamp of final character count over `max 1 total_typed_chars`; with
no typing it equals 1 whenever the final text is nonempty (and 0 for
empty text, which is what forces the amendment); in scenario S6 the
value lies strictly between 0.70 and 0.72. -/
theorem efficiency_score_spec (st : FeatureExtractor) (T : String)
    (sigma : List AnswerMode → List AnswerMode) (tau : List UserState → List UserState)
    (mid : String) :
    EditingFeatures.efficiency_score (finalizeProfile sigma tau mid st T).editing
        = min (max ((T.length : ℚ) / ((max 1 st.total_typed_chars : Nat) : ℚ)) 0) 1 ∧
    (st.total_typed_chars = 0 → 1 ≤ T.length →
      EditingFeatures.efficiency_score (finalizeProfile sigma tau mid st T).editing = 1) ∧
    (0.70 : ℚ) < EditingFeatures.efficiency_score
        (finalizeProfile id id "s6" (replayEvents s6Events FeatureExtractor.new) "Help!").editing ∧
    EditingFeatures.efficiency_score
        (finalizeProfile id id "s6" (replayEvents s6Events FeatureExtractor.new) "Help!").editing
      < (0.72 : ℚ) := by
  have h7 : (replayEvents s6Events FeatureExtractor.new).total_typed_chars = 7 := by decide
  have h5 : ("Help!".length : Nat) = 5 := by decide
  refine ⟨eff_formula_rfl st T sigma tau mid, ?_, ?_, ?_⟩
  · intro h0 h1
    rw [eff_formula_rfl, h0]
    norm_num
    exact h1
  · rw [eff_formula_rfl, h7, h5]
    norm_num
  · rw [eff_formula_rfl, h7, h5]
    norm_num

/-- Claim C5 witness: a fresh session finalized against the nonempty
text "x" has efficiency 1. -/
theorem efficiency_score_spec_witness :
    FeatureExtractor.new.total_typed_chars = 0 ∧
    1 ≤ "x".length ∧
    EditingFeatures.efficiency_score (finalizeProfile id id "m" FeatureExtractor.new "x").editing = 1 :=
  ⟨rfl, by decide, (efficiency_score_spec FeatureExtractor.new "x" id id "m").2.1 rfl (by decide)⟩

theorem c6_rule_modes_eval :
    RuleEngine.rule_modes c6Source c6Timing c6Editing c6Structure
      = [AnswerMode.Summarize, AnswerMode.Structure] := by
  have h1 : r1_cond c6Source c6Structure := ⟨by norm_num [c6Source], by norm_num [c6Structure]⟩
  have h2 : ¬ r2_cond c6Source c6Timing c6Editing := by simp [r2_cond, c6Source]
  have h3 : ¬ r3_cond c6Structure := by simp [r3_cond, c6Structure]
  have h4 : ¬ r4_cond c6Source c6Editing := by simp [r4_cond, c6Source, c6Editing]
  have h5 : ¬ r5_cond c6Structure := by simp [r5_cond, c6Structure]
  have hq : c6Structure.question_like = false := rfl
  have hrs : c6Structure.request_summary = false := rfl
  have hri : c6Structure.request_implementation = false := rfl
  simp [RuleEngine.rule_modes, h1, h2, h3, h4, h5, hq, hrs, hri, hsInsert]

/-- Claim C6 support.  On identical feature inputs the mode set is the
two-element set of rule 1, but two admissible hash-set iteration orders
(identity and reversal of the insertion sequence) give different output
sequences: the emitted order is not fixed by the engine, hence not the
declared enum order, although both sequences denote the same set. -/
theorem mode_order_depends_on_iteration :
    (RuleEngine.apply id id c6Source c6Timing c6Editing c6Structure).answer_mode
        ≠ (RuleEngine.apply List.reverse id c6Source c6Timing c6Editing c6Structure).answer_mode ∧
    List.Perm (RuleEngine.apply id id c6Source c6Timing c6Editing c6Structure).answer_mode
        (RuleEngine.apply List.reverse id c6Source c6Timing c6Editing c6Structure).answer_mode := by
  have ha : (RuleEngine.apply id id c6Source c6Timing c6Editing c6Structure).answer_mode
      = [AnswerMode.Summarize, AnswerMode.Structure] := by
    simp [RuleEngine.apply, c6_rule_modes_eval]
  have hb : (RuleEngine.apply List.reverse id c6Source c6Timing c6Editing c6Structure).answer_mode
      = [AnswerMode.Structure, AnswerMode.Summarize] := by
    simp [RuleEngine.apply, c6_rule_modes_eval]
  rw [ha, hb]
  exact ⟨by decide, by decide⟩

theorem ite_add_ge {c : Prop} [Decidable c] {x a b : ℚ} (hx : b ≤ x) (ha : 0 ≤ a) :
    b ≤ if c then x + a else x := by
  split <;> linarith

theorem rule_confidence_raw_ge (s : SourceFeatures) (t : TimingFeatures)
    (e : EditingFeatures) (stf : StructureFeatures) :
    (0.5 : ℚ) ≤ RuleEngine.rule_confidence_raw s t e stf := by
  simp only [RuleEngine.rule_confidence_raw]
  iterate 10 (refine ite_add_ge ?_ (by norm_num))
  norm_num

theorem pr_nonneg_le_one (st : FeatureExtractor) (d : Nat) :
    0 ≤ SourceFeatures.paste_ratio (extract_source_features st d) ∧
    SourceFeatures.paste_ratio (extract_source_features st d) ≤ 1 := by
  have hb : SourceFeatures.paste_ratio (extract_source_features st d)
      = if st.total_typed_chars + st.total_pasted_chars > 0 then
          (st.total_pasted_chars : ℚ) / ((st.total_typed_chars + st.total_pasted_chars : Nat) : ℚ)
        else 0 := rfl
  rw [hb]
  split
  · rename_i h
    constructor
    · positivity
    · rw [div_le_one (by exact_mod_cast h)]
      exact_mod_cast Nat.le_add_left st.total_pasted_chars st.total_typed_chars
  · exact ⟨le_refl 0, by norm_num⟩

/-- Claim C8 counterexample.  With no typing and a final character count
of zero the efficiency score is 0, not the 1 the guard clause claims. -/
theorem efficiency_guard_cex :
    FeatureExtractor.new.total_typed_chars = 0 ∧
    EditingFeatures.efficiency_score (extract_editing_features FeatureExtractor.new 0) = 0 ∧
    ((0 : ℚ) ≠ 1) := by
  refine ⟨rfl, ?_, by norm_num⟩
  have hb : EditingFeatures.efficiency_score (extract_editing_features FeatureExtractor.new 0)
      = min (max (((0 : Nat) : ℚ) / ((max 1 FeatureExtractor.new.total_typed_chars : Nat) : ℚ)) 0) 1 := rfl
  have ht : FeatureExtractor.new.total_typed_chars = 0 := rfl
  rw [hb, ht]
  norm_num

/-- Claim C8 amended.  Paste ratio, efficiency score and confidence all
lie in the unit interval; a zero total character count yields paste
ratio 0; the efficiency denominator is forced to at least 1, and with no
typing the score equals `min final_char_count 1` (so 1 exactly when the
final text is nonempty). -/
theorem derived_values_bounded (st : FeatureExtractor) (d fc : Nat)
    (sigma : List AnswerMode → List AnswerMode) (tau : List UserState → List UserState)
    (s : SourceFeatures) (t : TimingFeatures) (e : EditingFeatures) (stf : StructureFeatures) :
    (0 ≤ SourceFeatures.paste_ratio (extract_source_features st d) ∧
      SourceFeatures.paste_ratio (extract_source_features st d) ≤ 1) ∧
    (0 ≤ EditingFeatures.efficiency_score (extract_editing_features st fc) ∧
      EditingFeatures.efficiency_score (extract_editing_features st fc) ≤ 1) ∧
    (0 ≤ (RuleEngine.apply sigma tau s t e stf).confidence ∧
      (RuleEngine.apply sigma tau s t e stf).confidence ≤ 1) ∧
    (st.total_typed_chars + st.total_pasted_chars = 0 →
      SourceFeatures.paste_ratio (extract_source_features st d) = 0) ∧
    (st.total_typed_chars = 0 →
      EditingFeatures.efficiency_score (extract_editing_features st fc) = min (fc : ℚ) 1) := by
  have heff : EditingFeatures.efficiency_score (extract_editing_features st fc)
      = min (max ((fc : ℚ) / ((max 1 st.total_typed_chars : Nat) : ℚ)) 0) 1 := rfl
  have hconf : (RuleEngine.apply sigma tau s t e stf).confidence
      = min (RuleEngine.rule_confidence_raw s t e stf) 1 := rfl
  refine ⟨pr_nonneg_le_one st d, ?_, ?_, ?_, ?_⟩
  · rw [heff]
    exact ⟨le_min (le_max_right _ _) zero_le_one, min_le_right _ _⟩
  · rw [hconf]
    refine ⟨le_min ?_ zero_le_one, min_le_right _ _⟩
    exact le_trans (by norm_num) (rule_confidence_raw_ge s t e stf)
  · intro h0
    have hb : SourceFeatures.paste_ratio (extract_source_features st d)
        = if st.total_typed_chars + st.total_pasted_chars > 0 then
            (st.total_pasted_chars : ℚ) / ((st.total_typed_chars + st.total_pasted_chars : Nat) : ℚ)
          else 0 := rfl
    rw [hb]
    simp [h0]
  · intro h0
    rw [heff, h0]
    norm_num

/-- Claim C8 witness at a fresh session, final character count 3, and
the rule-1 feature bundles. -/
theorem derived_values_bounded_witness :
    (FeatureExtractor.new.total_typed_chars + FeatureExtractor.new.total_pasted_chars = 0) ∧
    SourceFeatures.paste_ratio (extract_source_features FeatureExtractor.new 0) = 0 ∧
    (FeatureExtractor.new.total_typed_chars = 0) ∧
    EditingFeatures.efficiency_score (extract_editing_features FeatureExtractor.new 3)
        = min ((3 : Nat) : ℚ) 1 ∧
    0 ≤ (RuleEngine.apply id id c6Source c6Timing c6Editing c6Structure).confidence ∧
    (RuleEngine.apply id id c6Source c6Timing c6Editing c6Structure).confidence ≤ 1 := by
  have h := derived_values_bounded FeatureExtractor.new 0 3 id id
    c6Source c6Timing c6Editing c6Structure
  exact ⟨rfl, h.2.2.2.1 rfl, rfl, h.2.2.2.2 rfl, h.2.2.1.1, h.2.2.1.2⟩

end IFL
